import Mathlib

/-
Shallow embedding of src/bdaddr.py (bumble-bdaddr): a tool that programs the
permanent device address of a Bluetooth controller by issuing vendor-specific
HCI commands, plus the asynchronous event-correlation mechanism used for the
CSR vendor.

Modelling conventions:
- Python `bytes` values are lists of `Nat` (each entry a byte value);
  Python integer arithmetic is unbounded, so `Nat` arithmetic is exact.
- A bumble `Address` is 6 raw bytes (`bytes(address)` yields them in
  little-endian wire order, here fields b0..b5) plus an address-type tag.
- An async function that only sends commands and awaits their completions is
  modelled by the list of commands it submits to the transport, under the
  abstraction that every awaited completion reports success; `bdaddr` itself
  returns the list of commands sent before it finished or raised, paired with
  the exception message if one was raised.
- `_csr_get_response` manipulates the mutable slot `device.host.on_hci_event`
  and an asyncio future; that part is modelled as an explicit state machine
  (`CsrState`, `csrSetup`, `deliver`) over the slot value, the future state
  and the list of events handed to the original handler.
-/

namespace BDAddr

/-- A byte value (Python `bytes` entries and small ints). -/
abbrev Byte := Nat

/-- A bumble `Address`: six raw bytes, in the order produced by
`bytes(address)` (little-endian wire order), plus the address-type tag. -/
structure BTAddress where
  b0 : Byte
  b1 : Byte
  b2 : Byte
  b3 : Byte
  b4 : Byte
  b5 : Byte
  address_type : Byte
deriving DecidableEq

/-- bumble's `Address.PUBLIC_DEVICE_ADDRESS` tag value. -/
def PUBLIC_DEVICE_ADDRESS : Byte := 0

/-- Modelled from the spec: the external HCI command serializer (bumble)
encodes an `("address", Address.parse_address)` field as the 6 address bytes
in source (little-endian wire) order, i.e. exactly `bytes(address)`. -/
def addressFieldBytes (a : BTAddress) : List Byte :=
  [a.b0, a.b1, a.b2, a.b3, a.b4, a.b5]

/-- A command submitted to the transport: either an HCI command in the given
op-code namespace (`ogf`) with the given command number (`ocf`) and payload,
or the generic parameterless `HCI_Reset_Command`. -/
inductive Command where
  | hci (ogf : Nat) (ocf : Nat) (payload : List Byte)
  | reset
deriving DecidableEq

/-- `_Ericsson_Write_BDAddr_Command`: op code `hci_command_op_code(0x3F, 0x000D)`,
fields `[("address", Address.parse_address)]`. -/
def _Ericsson_Write_BDAddr_Command (a : BTAddress) : Command :=
  .hci 0x3F 0x000D (addressFieldBytes a)

/-- `_Ericsson_Store_In_Flash_Command`: op code `hci_command_op_code(0x3F, 0x0022)`,
fields user_id, length, data. Field serialization modelled from the spec:
key byte, declared length byte, then the data bytes. -/
def _Ericsson_Store_In_Flash_Command (user_id : Byte) (len : Byte)
    (data : List Byte) : Command :=
  .hci 0x3F 0x0022 ([user_id, len] ++ data)

/-- `_CSR_Write_BDAddr_Command`: op code `hci_command_op_code(0x3F, 0x0000)`,
fields `[("payload", "*")]` — the raw payload bytes. -/
def _CSR_Write_BDAddr_Command (payload : List Byte) : Command :=
  .hci 0x3F 0x0000 payload

/-- `_TI_Write_BDAddr_Command`: op code `hci_command_op_code(0x3F, 0x0006)`. -/
def _TI_Write_BDAddr_Command (a : BTAddress) : Command :=
  .hci 0x3F 0x0006 (addressFieldBytes a)

/-- `_BCM_Write_BDAddr_Command`: op code `hci_command_op_code(0x3F, 0x0001)`. -/
def _BCM_Write_BDAddr_Command (a : BTAddress) : Command :=
  .hci 0x3F 0x0001 (addressFieldBytes a)

/-- `_Intel_Write_BDAddr_Command`: op code `hci_command_op_code(0x3F, 0x0031)`. -/
def _Intel_Write_BDAddr_Command (a : BTAddress) : Command :=
  .hci 0x3F 0x0031 (addressFieldBytes a)

/-- `_CYS_Write_BDAddr_Command`: op code `hci_command_op_code(0x3F, 0x0001)`. -/
def _CYS_Write_BDAddr_Command (a : BTAddress) : Command :=
  .hci 0x3F 0x0001 (addressFieldBytes a)

/-- `_Zeevo_Write_BDAddr_Command`: op code `hci_command_op_code(0x3F, 0x0001)`. -/
def _Zeevo_Write_BDAddr_Command (a : BTAddress) : Command :=
  .hci 0x3F 0x0001 (addressFieldBytes a)

/-- The 24 template body bytes of the CSR write packet:
`bytearray.fromhex("02000c001147037000000100040000000000000000000000")`. -/
def csrWritePayloadTemplate : List Byte :=
  [0x02, 0x00, 0x0c, 0x00, 0x11, 0x47, 0x03, 0x70, 0x00, 0x00, 0x01, 0x00,
   0x04, 0x00, 0x00, 0x00, 0x00, 0x00, 0x00, 0x00, 0x00, 0x00, 0x00, 0x00]

/-- The packet assembled by `_csr_bdaddr` (lines 96-108): start from the
template, optionally set the transient flag byte at offset 14 to 0x08, write
the six address bytes at offsets 16-23 in the vendor reordering, and prefix
the body with the 0xC2 channel marker byte. -/
def _csr_bdaddr_payload (a : BTAddress) (transient : Bool) : List Byte :=
  let p0 := csrWritePayloadTemplate
  let p1 := if transient then p0.set 14 0x08 else p0
  let p2 := ((((((((p1.set 16 a.b2).set 17 0x00).set 18 a.b0).set 19 a.b1).set
      20 a.b3).set 21 0x00).set 22 a.b4).set 23 a.b5)
  0xC2 :: p2

/-- The 18 template body bytes of the CSR reset packet:
`bytearray.fromhex("020009000000014000000000000000000000")`. -/
def csrResetPayloadTemplate : List Byte :=
  [0x02, 0x00, 0x09, 0x00, 0x00, 0x00, 0x01, 0x40, 0x00, 0x00, 0x00, 0x00,
   0x00, 0x00, 0x00, 0x00, 0x00, 0x00]

/-- The packet assembled by `_csr_reset` (lines 114-117): template, optional
transient flag at offset 6, 0xC2 prefix. -/
def _csr_reset_payload (transient : Bool) : List Byte :=
  let p0 := csrResetPayloadTemplate
  let p1 := if transient then p0.set 6 0x02 else p0
  0xC2 :: p1

/-- Commands sent by `_ericsson_bdaddr` (awaited completion assumed ok). -/
def _ericsson_bdaddr (a : BTAddress) : List Command :=
  [_Ericsson_Write_BDAddr_Command a]

/-- Commands sent by `_intel_bdaddr`. -/
def _intel_bdaddr (a : BTAddress) : List Command :=
  [_Intel_Write_BDAddr_Command a]

/-- Commands sent by `_csr_bdaddr` with its default `transient=False`:
one raw packet via `send_hci_packet`, then `_csr_get_response` is awaited
(it sends nothing). -/
def _csr_bdaddr (a : BTAddress) : List Command :=
  [_CSR_Write_BDAddr_Command (_csr_bdaddr_payload a false)]

/-- Commands sent by `_csr_reset` with its default `transient=False`. -/
def _csr_reset : List Command :=
  [_CSR_Write_BDAddr_Command (_csr_reset_payload false)]

/-- Commands sent by `_ti_bdaddr`. -/
def _ti_bdaddr (a : BTAddress) : List Command :=
  [_TI_Write_BDAddr_Command a]

/-- Commands sent by `_bcm_bdaddr`. -/
def _bcm_bdaddr (a : BTAddress) : List Command :=
  [_BCM_Write_BDAddr_Command a]

/-- Commands sent by `_zeevo_bdaddr`. -/
def _zeevo_bdaddr (a : BTAddress) : List Command :=
  [_Zeevo_Write_BDAddr_Command a]

/-- Commands sent by `_st_bdaddr`:
`_Ericsson_Store_In_Flash_Command(user_id=0xFE, length=6, data=bytes(address))`. -/
def _st_bdaddr (a : BTAddress) : List Command :=
  [_Ericsson_Store_In_Flash_Command 0xFE 6 (addressFieldBytes a)]

/-- Commands sent by `_cys_bdaddr`. -/
def _cys_bdaddr (a : BTAddress) : List Command :=
  [_CYS_Write_BDAddr_Command a]

/-- The write-dispatch `match` of `bdaddr` (lines 19-39): the commands the
selected vendor write path sends, or `none` for the default case that raises
"Unsupported manufacturer". -/
def writeTrace (company_identifier : Nat) (a : BTAddress) :
    Option (List Command) :=
  match company_identifier with
  | 0 => some (_ericsson_bdaddr a)
  | 2 => some (_intel_bdaddr a)
  | 10 => some (_csr_bdaddr a)
  | 13 => some (_ti_bdaddr a)
  | 15 => some (_bcm_bdaddr a)
  | 18 => some (_zeevo_bdaddr a)
  | 48 => some (_st_bdaddr a)
  | 57 => some (_ericsson_bdaddr a)
  | 305 => some (_cys_bdaddr a)
  | _ => none

/-- The reset-dispatch `match` of `bdaddr` (lines 41-61): the commands sent
when `reset` is requested, or `none` for the default case. The `...` cases in
the source send nothing. -/
def resetTrace (company_identifier : Nat) : Option (List Command) :=
  match company_identifier with
  | 0 => some []
  | 2 => some []
  | 10 => some _csr_reset
  | 13 => some []
  | 15 => some [.reset]
  | 18 => some []
  | 48 => some [.reset]
  | 57 => some [.reset]
  | 305 => some []
  | _ => none

/-- `bdaddr(device, address, reset)` (lines 11-61), modelled as the list of
commands submitted to the transport before the call finished or raised,
paired with the raised exception message when one was raised. The cached
`device.host.local_version` is passed as `local_version` (`none` when absent,
otherwise its `company_identifier`); every awaited completion is assumed to
report success. -/
def bdaddr (local_version : Option Nat) (address : BTAddress)
    (reset : Bool) : List Command × Option String :=
  if address.address_type ≠ PUBLIC_DEVICE_ADDRESS then
    ([], some "address should be PUBLIC_DEVICE_ADDRESS")
  else
    match local_version with
    | none => ([], some "No available local_version")
    | some company_identifier =>
      match writeTrace company_identifier address with
      | none => ([], some "Unsupported manufacturer")
      | some ws =>
        if reset then
          match resetTrace company_identifier with
          | none => (ws, some "Unsupported manufacturer")
          | some rs => (ws ++ rs, none)
        else (ws, none)

/-- State of the asyncio future created by `_csr_get_response`. -/
inductive FutureState where
  | pending
  | success
  | failed (msg : String)
deriving DecidableEq

/-- Value held by the mutable slot `device.host.on_hci_event`: either the
handler that was installed before `_csr_get_response` ran (`origin`), or the
interceptor closure defined inside it (`correlator`). -/
inductive Slot where
  | origin
  | correlator
deriving DecidableEq

/-- An asynchronous HCI event as seen by `on_hci_event`: its event code and
its `parameters` bytes. -/
structure Event where
  event_code : Byte
  parameters : List Byte
deriving DecidableEq

/-- State of one `_csr_get_response` invocation: the current value of the
`device.host.on_hci_event` slot, the state of the future, the events handed
to the original handler so far, and how many times the slot has been
assigned the saved original handler (the restore at line 141). -/
structure CsrState where
  slot : Slot
  future : FutureState
  forwarded : List Event
  restores : Nat
deriving DecidableEq

/-- Lines 122-141 of `_csr_get_response`, up to (but excluding) the
`await future`: the future is created pending, the current handler is saved,
the `try` block defines the interceptor closure and installs it at line 137
(when `setupFails` is true that installation raises instead, and the bare
`except` at line 139 sets the "Some error occurred" exception on the
future), and then the `finally` block at line 141 assigns the saved original
handler back into the slot — this runs before the `await`, on both paths. -/
def csrSetup (setupFails : Bool) : CsrState :=
  let s : CsrState :=
    { slot := .origin, future := .pending, forwarded := [], restores := 0 }
  let s :=
    if setupFails then { s with future := .failed "Some error occurred" }
    else { s with slot := .correlator }
  { s with slot := .origin, restores := s.restores + 1 }

/-- Body of the interceptor closure `on_hci_event` (lines 127-135): a
vendor-specific event (code 0xFF) whose parameters satisfy
`res[0] == 0xC2 and res[9] + res[10] << 8 == 0` — which Python parses as
`(res[9] + res[10]) << 8 == 0` — resolves the future with success, any other
0xFF event resolves it with the CSR failure, and any other event is handed
to the saved original handler. -/
def on_hci_event (s : CsrState) (e : Event) : CsrState :=
  if e.event_code = 0xFF then
    if e.parameters.getD 0 0 = 0xC2 ∧
        (e.parameters.getD 9 0 + e.parameters.getD 10 0) <<< 8 = 0 then
      { s with future := .success }
    else
      { s with future := .failed "Write BDAddr (CSR) failed" }
  else
    { s with forwarded := s.forwarded ++ [e] }

/-- Delivery of one incoming HCI event to whatever handler currently
occupies the `device.host.on_hci_event` slot: the interceptor closure when
it is installed, otherwise the original handler. -/
def deliver (s : CsrState) (e : Event) : CsrState :=
  match s.slot with
  | .correlator => on_hci_event s e
  | .origin => { s with forwarded := s.forwarded ++ [e] }

/-- Delivery of a sequence of incoming HCI events, in order. -/
def deliverAll (s : CsrState) (es : List Event) : CsrState :=
  es.foldl deliver s

/-- The exact set of company identifiers the write dispatch supports. -/
def supportedIdentifiers : List Nat := [0, 2, 10, 13, 15, 18, 48, 57, 305]

/-- A sample public-type address used to instantiate universally quantified
theorems at concrete inputs. -/
def addrSample : BTAddress :=
  ⟨0x11, 0x22, 0x33, 0x44, 0x55, 0x66, PUBLIC_DEVICE_ADDRESS⟩

/-- A sample address whose type tag is not the public one. -/
def addrRandomType : BTAddress := ⟨0x11, 0x22, 0x33, 0x44, 0x55, 0x66, 1⟩

/-- An unrelated notification (HCI Command Complete, event code 0x0E). -/
def evUnrelated1 : Event := ⟨0x0E, [0x01, 0x03, 0x0C, 0x00]⟩

/-- Another unrelated notification (event code 0x13). -/
def evUnrelated2 : Event := ⟨0x13, [0x01, 0x40, 0x00, 0x01, 0x00]⟩

/-- A vendor-specific (0xFF-class) notification whose first payload byte is
the 0xC2 channel marker and whose status bytes at offsets 9 and 10 are both
zero: the one the CSR correlator is meant to resolve success on. -/
def evMatching : Event :=
  ⟨0xFF, [0xC2, 0x00, 0x00, 0x00, 0x00, 0x00, 0x00, 0x00, 0x00, 0x00, 0x00]⟩

/-- A correlator state as it would look with the interceptor installed and
the future still pending. -/
def csrPendingState : CsrState := ⟨.correlator, .pending, [], 1⟩

/-- Claim C9: for every address whose type is not the public device address
type, every cached-identification value and every reset flag, `bdaddr`
raises the invalid-address-type error before any vendor code runs: the
command trace is empty, so nothing is sent over the transport. -/
theorem address_type_guard (local_version : Option Nat) (a : BTAddress)
    (r : Bool) (ha : a.address_type ≠ PUBLIC_DEVICE_ADDRESS) :
    bdaddr local_version a r =
      ([], some "address should be PUBLIC_DEVICE_ADDRESS") := by
  unfold bdaddr
  rw [if_pos ha]

/-- Witness for C9 at a concrete non-public address. -/
theorem address_type_guard_witness :
    bdaddr (some 10) addrRandomType true =
      ([], some "address should be PUBLIC_DEVICE_ADDRESS") :=
  address_type_guard (some 10) addrRandomType true (by decide)

/-- Claim C10: the BCM, Zeevo and CYS write paths are extensionally equal:
for every address all three submit byte-identical command packets, built
with op-code namespace 0x3F, command number 0x0001 and the same
address-field encoding. -/
theorem bcm_zeevo_cys_write_paths_equal (a : BTAddress) :
    _bcm_bdaddr a = _zeevo_bdaddr a ∧
    _bcm_bdaddr a = _cys_bdaddr a ∧
    _BCM_Write_BDAddr_Command a = Command.hci 0x3F 0x0001 (addressFieldBytes a) ∧
    _Zeevo_Write_BDAddr_Command a = Command.hci 0x3F 0x0001 (addressFieldBytes a) ∧
    _CYS_Write_BDAddr_Command a = Command.hci 0x3F 0x0001 (addressFieldBytes a) :=
  ⟨rfl, rfl, rfl, rfl, rfl⟩

/-- Claim C7: each of the six standard vendor write paths sends one command
in the vendor-specific op-code namespace 0x3F with the exact command numbers
Ericsson 0x000D, Intel 0x0031, TI 0x0006, BCM 0x0001, Zeevo 0x0001,
CYS 0x0001, and its payload is the 6 address bytes in source order. -/
theorem vendor_write_commands (a : BTAddress) :
    _ericsson_bdaddr a =
      [Command.hci 0x3F 0x000D [a.b0, a.b1, a.b2, a.b3, a.b4, a.b5]] ∧
    _intel_bdaddr a =
      [Command.hci 0x3F 0x0031 [a.b0, a.b1, a.b2, a.b3, a.b4, a.b5]] ∧
    _ti_bdaddr a =
      [Command.hci 0x3F 0x0006 [a.b0, a.b1, a.b2, a.b3, a.b4, a.b5]] ∧
    _bcm_bdaddr a =
      [Command.hci 0x3F 0x0001 [a.b0, a.b1, a.b2, a.b3, a.b4, a.b5]] ∧
    _zeevo_bdaddr a =
      [Command.hci 0x3F 0x0001 [a.b0, a.b1, a.b2, a.b3, a.b4, a.b5]] ∧
    _cys_bdaddr a =
      [Command.hci 0x3F 0x0001 [a.b0, a.b1, a.b2, a.b3, a.b4, a.b5]] :=
  ⟨rfl, rfl, rfl, rfl, rfl, rfl⟩

/-- Claim C4 counterexample: the CSR write packet body (the bytes after the
0xC2 prefix) does not have 19 bytes — at a concrete address it has 24, and
the whole packet has 25 bytes, not 20 (19 + prefix) nor 21 (prefix + 2-byte
header + 18). -/
theorem csr_body_length_19_counterexample :
    ¬((_csr_bdaddr_payload addrSample false).tail.length = 19) ∧
    (_csr_bdaddr_payload addrSample false).tail.length = 24 ∧
    (_csr_bdaddr_payload addrSample false).length = 25 := by
  decide

/-- Claim C4 (amended): for every address, the CSR write packet assembled
non-transiently consists of a 24-byte body plus a single 1-byte 0xC2 prefix
(25 bytes in total; equivalently the body is 22 bytes after the fixed 0xC2
prefix and a 2-byte header). -/
theorem csr_body_length (a : BTAddress) :
    (_csr_bdaddr_payload a false).length = 25 ∧
    (_csr_bdaddr_payload a false).tail.length = 24 ∧
    (_csr_bdaddr_payload a false).headD 0 = 0xC2 :=
  ⟨rfl, rfl, rfl⟩

/-- Claim C1 (evaluated at the failing input): after `_csr_get_response`
finishes its setup (lines 122-141), the `on_hci_event` slot already holds
the original handler again — the `finally` at line 141 runs before the
`await` — so for the sequence of three notifications of which only the third
is a matching 0xFF-class event with zero status, all three (including the
matching third) are forwarded to the previously-installed handler and the
future is still pending: the pending result never resolves. The interceptor
closure itself would have resolved success on the third event had it still
been installed. -/
theorem csr_interceptor_uninstalled_before_await :
    (csrSetup false).slot = .origin ∧
    (deliverAll (csrSetup false) [evUnrelated1, evUnrelated2, evMatching]).future
      = .pending ∧
    (deliverAll (csrSetup false) [evUnrelated1, evUnrelated2, evMatching]).forwarded
      = [evUnrelated1, evUnrelated2, evMatching] ∧
    (on_hci_event (csrSetup false) evMatching).future = .success := by
  decide

set_option maxHeartbeats 1600000 in
/-- Claim C2: for every address and transient flag, the CSR write encoder
produces a packet whose first byte is the 0xC2 channel marker, whose body
carries the address bytes in the vendor reordering at offsets 16-23, whose
transient flag byte at body offset 14 is 0x08 exactly when transient is
requested, and whose every other body byte equals the fixed template. -/
theorem csr_write_packet_layout (a : BTAddress) (t : Bool) (i : Nat)
    (hi : i < 24) (hflag : i ≠ 14) (haddr : ¬(16 ≤ i ∧ i ≤ 23)) :
    (_csr_bdaddr_payload a t).headD 0 = 0xC2 ∧
    ((_csr_bdaddr_payload a t).tail.getD 16 0 = a.b2 ∧
     (_csr_bdaddr_payload a t).tail.getD 17 0 = 0x00 ∧
     (_csr_bdaddr_payload a t).tail.getD 18 0 = a.b0 ∧
     (_csr_bdaddr_payload a t).tail.getD 19 0 = a.b1 ∧
     (_csr_bdaddr_payload a t).tail.getD 20 0 = a.b3 ∧
     (_csr_bdaddr_payload a t).tail.getD 21 0 = 0x00 ∧
     (_csr_bdaddr_payload a t).tail.getD 22 0 = a.b4 ∧
     (_csr_bdaddr_payload a t).tail.getD 23 0 = a.b5) ∧
    (_csr_bdaddr_payload a t).tail.getD 14 0 = (if t then 0x08 else 0x00) ∧
    (_csr_bdaddr_payload a t).tail.getD i 0 = csrWritePayloadTemplate.getD i 0 := by
  cases t <;>
    refine ⟨rfl, ⟨rfl, rfl, rfl, rfl, rfl, rfl, rfl, rfl⟩, rfl, ?_⟩ <;>
    interval_cases i <;> first | omega | rfl

/-- Witness for C2 at a concrete address, transient encoding, body byte 0. -/
theorem csr_write_packet_layout_witness :
    (_csr_bdaddr_payload addrSample true).headD 0 = 0xC2 ∧
    (_csr_bdaddr_payload addrSample true).tail.getD 14 0 =
      (if true then 0x08 else 0x00) ∧
    (_csr_bdaddr_payload addrSample true).tail.getD 0 0 =
      csrWritePayloadTemplate.getD 0 0 :=
  have h := csr_write_packet_layout addrSample true 0 (by decide) (by decide)
    (by decide)
  ⟨h.1, h.2.2.1, h.2.2.2⟩

/-- The status test the code performs, `(low + high) << 8 == 0`, holds
exactly when the spec's combination `low + (high << 8)` is zero: both are
zero precisely when both status bytes are zero. -/
theorem shift_status_zero_iff (x y : Nat) :
    (x + y) <<< 8 = 0 ↔ x + y * 2 ^ 8 = 0 := by
  omega

/-- Claim C5: a 0xFF-class notification handled by the CSR interceptor
resolves the future with success exactly when its first payload byte is the
0xC2 channel marker and the two status bytes at payload offsets 9 and 10,
combined as low byte plus high byte shifted left by 8, equal zero; any
other 0xFF-class notification resolves the future with the CSR write
failure. (The code computes `(res[9] + res[10]) << 8` — Python precedence —
which is zero exactly when the spec's `res[9] + (res[10] << 8)` is.) -/
theorem csr_event_status_decision (s : CsrState) (e : Event)
    (h : e.event_code = 0xFF) :
    ((on_hci_event s e).future = .success ↔
      (e.parameters.getD 0 0 = 0xC2 ∧
       e.parameters.getD 9 0 + e.parameters.getD 10 0 * 2 ^ 8 = 0)) ∧
    (¬(e.parameters.getD 0 0 = 0xC2 ∧
       e.parameters.getD 9 0 + e.parameters.getD 10 0 * 2 ^ 8 = 0) →
      (on_hci_event s e).future = .failed "Write BDAddr (CSR) failed") := by
  unfold on_hci_event
  rw [if_pos h]
  by_cases hc : e.parameters.getD 0 0 = 0xC2 ∧
      (e.parameters.getD 9 0 + e.parameters.getD 10 0) <<< 8 = 0
  · rw [if_pos hc]
    have hspec : e.parameters.getD 0 0 = 0xC2 ∧
        e.parameters.getD 9 0 + e.parameters.getD 10 0 * 2 ^ 8 = 0 :=
      ⟨hc.1, (shift_status_zero_iff _ _).mp hc.2⟩
    exact ⟨⟨fun _ => hspec, fun _ => rfl⟩, fun hn => absurd hspec hn⟩
  · rw [if_neg hc]
    have hspec : ¬(e.parameters.getD 0 0 = 0xC2 ∧
        e.parameters.getD 9 0 + e.parameters.getD 10 0 * 2 ^ 8 = 0) :=
      fun hs => hc ⟨hs.1, (shift_status_zero_iff _ _).mpr hs.2⟩
    refine ⟨⟨fun hf => ?_, fun hs => absurd hs hspec⟩, fun _ => rfl⟩
    exact absurd hf (by simp)

/-- Witness for C5 at a concrete pending state and a concrete matching
0xFF-class notification. -/
theorem csr_event_status_decision_witness :
    evMatching.event_code = 0xFF ∧
    ((on_hci_event csrPendingState evMatching).future = .success ↔
      (evMatching.parameters.getD 0 0 = 0xC2 ∧
       evMatching.parameters.getD 9 0 + evMatching.parameters.getD 10 0 * 2 ^ 8
         = 0)) :=
  ⟨rfl, (csr_event_status_decision csrPendingState evMatching rfl).1⟩

/-- Delivering events to a state whose handler slot holds the original
handler never changes the slot and never performs another restore. -/
theorem deliverAll_slot_origin (es : List Event) :
    ∀ s : CsrState, s.slot = .origin →
      (deliverAll s es).slot = .origin ∧
      (deliverAll s es).restores = s.restores := by
  induction es with
  | nil => exact fun s h => ⟨h, rfl⟩
  | cons e es ih =>
    intro s h
    have hstep : deliver s e = { s with forwarded := s.forwarded ++ [e] } := by
      unfold deliver
      rw [h]
    have h2 : (deliver s e).slot = .origin := by rw [hstep]; exact h
    have h3 : (deliver s e).restores = s.restores := by rw [hstep]
    have hrec := ih (deliver s e) h2
    have hcons : deliverAll s (e :: es) = deliverAll (deliver s e) es := rfl
    exact ⟨hcons ▸ hrec.1, by rw [hcons, hrec.2, h3]⟩

/-- Claim C6: whether or not the interception setup raises, and whatever
sequence of notifications is delivered afterwards (covering the whole
awaiting period up to any exit — success, failure or abandonment),
`_csr_get_response` has assigned the saved original handler back into
`device.host.on_hci_event` exactly once and the slot equals that saved
value. -/
theorem csr_handler_always_restored (setupFails : Bool) (es : List Event) :
    (deliverAll (csrSetup setupFails) es).slot = .origin ∧
    (deliverAll (csrSetup setupFails) es).restores = 1 := by
  have h := deliverAll_slot_origin es (csrSetup setupFails)
    (by cases setupFails <;> rfl)
  have hr : (csrSetup setupFails).restores = 1 := by cases setupFails <;> rfl
  exact ⟨h.1, by rw [h.2, hr]⟩

/-- A company identifier outside the supported set selects no write path. -/
theorem writeTrace_unsupported (cid : Nat) (a : BTAddress)
    (h : cid ∉ supportedIdentifiers) : writeTrace cid a = none := by
  rw [writeTrace.eq_def]
  split <;> simp_all [supportedIdentifiers]

/-- Claim C3: with a public-type address, `bdaddr` fails with the
missing-identification error when no cached company identifier is
available; for a company identifier outside {0, 2, 10, 13, 15, 18, 48, 57,
305} it fails with the unsupported-manufacturer error; every identifier in
that set selects exactly one vendor write path; and identifiers 0 and 57
select the same Ericsson write path. -/
theorem bdaddr_dispatch (a : BTAddress) (r : Bool)
    (ha : a.address_type = PUBLIC_DEVICE_ADDRESS) :
    bdaddr none a r = ([], some "No available local_version") ∧
    (∀ cid : Nat, cid ∉ supportedIdentifiers →
      bdaddr (some cid) a r = ([], some "Unsupported manufacturer")) ∧
    (∀ cid ∈ supportedIdentifiers, (writeTrace cid a).isSome = true) ∧
    writeTrace 0 a = some (_ericsson_bdaddr a) ∧
    writeTrace 57 a = some (_ericsson_bdaddr a) := by
  have hpub : ¬(a.address_type ≠ PUBLIC_DEVICE_ADDRESS) := by simp [ha]
  refine ⟨?_, ?_, ?_, rfl, rfl⟩
  · unfold bdaddr
    rw [if_neg hpub]
  · intro cid hcid
    have hw := writeTrace_unsupported cid a hcid
    unfold bdaddr
    rw [if_neg hpub]
    simp only [hw]
  · intro cid hcid
    simp only [supportedIdentifiers, List.mem_cons, List.not_mem_nil,
      or_false] at hcid
    rcases hcid with h | h | h | h | h | h | h | h | h <;> subst h <;> rfl

/-- Witness for C3 at a concrete public address, exercising the missing
identification and the unsupported identifier 11. -/
theorem bdaddr_dispatch_witness :
    bdaddr none addrSample true = ([], some "No available local_version") ∧
    bdaddr (some 11) addrSample true =
      ([], some "Unsupported manufacturer") :=
  ⟨(bdaddr_dispatch addrSample true rfl).1,
    (bdaddr_dispatch addrSample true rfl).2.1 11 (by decide)⟩

/-- Claim C8: with a public-type address and reset requested, `bdaddr` sends
no further command after the write for company identifiers 0, 2, 13, 18 and
305; it sends exactly one generic parameterless HCI reset command after the
write command for identifiers 15, 48 and 57; and for identifier 10 (CSR) it
sends the distinct raw reset template after the CSR write packet. Every
awaited completion (in particular the write) is assumed successful. -/
theorem reset_dispatch (a : BTAddress)
    (ha : a.address_type = PUBLIC_DEVICE_ADDRESS) :
    (bdaddr (some 0) a true = (_ericsson_bdaddr a, none) ∧
     bdaddr (some 2) a true = (_intel_bdaddr a, none) ∧
     bdaddr (some 13) a true = (_ti_bdaddr a, none) ∧
     bdaddr (some 18) a true = (_zeevo_bdaddr a, none) ∧
     bdaddr (some 305) a true = (_cys_bdaddr a, none)) ∧
    (bdaddr (some 15) a true = (_bcm_bdaddr a ++ [Command.reset], none) ∧
     bdaddr (some 48) a true = (_st_bdaddr a ++ [Command.reset], none) ∧
     bdaddr (some 57) a true =
       (_ericsson_bdaddr a ++ [Command.reset], none)) ∧
    bdaddr (some 10) a true = (_csr_bdaddr a ++ _csr_reset, none) ∧
    _csr_reset =
      [_CSR_Write_BDAddr_Command (0xC2 :: csrResetPayloadTemplate)] := by
  have hpub : ¬(a.address_type ≠ PUBLIC_DEVICE_ADDRESS) := by simp [ha]
  refine ⟨⟨?_, ?_, ?_, ?_, ?_⟩, ⟨?_, ?_, ?_⟩, ?_, rfl⟩ <;>
    (unfold bdaddr; rw [if_neg hpub]; simp [writeTrace, resetTrace])

/-- Witness for C8 at a concrete public address (BCM, identifier 15). -/
theorem reset_dispatch_witness :
    bdaddr (some 15) addrSample true =
      (_bcm_bdaddr addrSample ++ [Command.reset], none) :=
  (reset_dispatch addrSample rfl).2.1.1

end BDAddr
